import Mathlib

/-!
Shallow embedding of the AD9833 dual-chip DDS driver
(`AD9833_Soft_MSPM0.c` / `AD9833_Soft_MSPM0.h`, with the points where the
STM32 HAL variant `AD9833_HAL.c` differs embedded separately).

Modelling conventions:
* C `uint16_t` / `uint8_t` / `uint32_t` values are `Nat`, with the
  truncating stores of 16-bit assignments made explicit by an `&&& 0xFFFF`
  mask (`u16`).
* C `enum` parameters (`chipChose`, `workStatus`, `waveType`) are `Nat`
  carrying the numeric values the header assigns them; a C enum variable can
  hold any integer, which is what lets the driver receive an unrecognized
  selector, so the embedding keeps the full `Nat` domain and reproduces the
  `if`/`switch` comparisons of the source literally.
* C `double` arithmetic is idealized as exact rational (`ℚ`) arithmetic;
  the C cast from `double` to an unsigned integer type truncates toward
  zero, embedded as `ratTrunc` (floor for non-negative values).  `fmod` is
  the C remainder with the sign of the dividend, embedded as `fmodQ`.
* Every GPIO transmission is recorded as an event `(choice, word)` where
  `choice` is the chip-select framing used by `AD9833_Write` (`CS1`, `CS2`
  or the simultaneous `CS_BOTH`).  The two file-scoped shadow registers
  `s_control_reg_cs1` / `s_control_reg_cs2` form the driver state, and each
  driver function maps a state to a final state plus the list of words it
  transmitted, in order.
* The top-level entry points take their `AD9833_InitTypedef *` argument as
  an `Option`: `none` is the NULL pointer.  A NULL dereference has no
  defined result and is embedded as `Option.none` in the result type.
-/

namespace AD9833

/-! ### Constants from `AD9833_Soft_MSPM0.h` -/

abbrev FREQ_REG_MAX : ℕ := 268435456

abbrev CTRL_B28 : ℕ := 0x2000
abbrev CTRL_HLB : ℕ := 0x1000
abbrev CTRL_FSELECT : ℕ := 0x0800
abbrev CTRL_PSELECT : ℕ := 0x0400
abbrev CTRL_RESET : ℕ := 0x0100
abbrev CTRL_SLEEP1 : ℕ := 0x0080
abbrev CTRL_SLEEP12 : ℕ := 0x0040
abbrev CTRL_OPBITEN : ℕ := 0x0020
abbrev CTRL_DIV2 : ℕ := 0x0008
abbrev CTRL_MODE : ℕ := 0x0002

abbrev CMD_CTRLREG : ℕ := 0x0000
abbrev CMD_FREQ0REG : ℕ := 0x4000
abbrev CMD_FREQ1REG : ℕ := 0x8000
abbrev CMD_PHASE0REG : ℕ := 0xC000
abbrev CMD_PHASE1REG : ℕ := 0xE000

/-- `chipChose` enum values. -/
abbrev CS1 : ℕ := 1
abbrev CS2 : ℕ := 2
abbrev CS_BOTH : ℕ := 3

/-- `workStatus` enum values. -/
abbrev CS1_SINGLE : ℕ := 0
abbrev CS2_SINGLE : ℕ := 1
abbrev CS1_CS2_DOUBLE : ℕ := 2

/-- `waveType` enum values. -/
abbrev SINE_WAVE : ℕ := 1
abbrev TRIANGLE_WAVE : ℕ := 2
abbrev SQUARE_WAVE : ℕ := 3

/-! ### 16-bit register arithmetic -/

/-- Truncating 16-bit store: a C assignment to a `uint16_t` keeps the low
16 bits of the (int-promoted) right-hand side. -/
def u16 (v : ℕ) : ℕ := v &&& 0xFFFF

/-- `reg |= mask` on a `uint16_t` lvalue. -/
def orBits (v mask : ℕ) : ℕ := u16 (v ||| mask)

/-- `reg &= ~mask` on a `uint16_t` lvalue.  The int-promoted complement
`~mask`, truncated back to 16 bits, is `0xFFFF ^^^ mask` for the 16-bit
masks the driver uses. -/
def andNotBits (v mask : ℕ) : ℕ := u16 (v &&& (0xFFFF ^^^ mask))

/-! ### Exact-rational model of the C `double` computations -/

/-- C conversion of a `double` to an integer type: truncation toward zero,
i.e. the numerator T-divided by the (positive) denominator.  For a
non-negative argument this is the floor (`ratTrunc_eq_floor` below). -/
def ratTrunc (q : ℚ) : ℤ := q.num.tdiv q.den

/-- C `fmod x y`: the remainder `x - trunc(x / y) * y`, which carries the
sign of the dividend `x` (it is NOT the mathematical modulo). -/
def fmodQ (x y : ℚ) : ℚ := x - (ratTrunc (x / y) : ℚ) * y

/-- `const double freqScale = (double)FREQ_REG_MAX / 25000000.0`. -/
def freqScale : ℚ := (FREQ_REG_MAX : ℚ) / 25000000

/-- The frequency conversion performed inline by `AD9833_FreqSet`
(both variants, lines 270–279 of the soft version):
clamp negative input to 0 and input above 12.5 MHz to 12.5 MHz,
truncate `freq * freqScale` to an unsigned integer, keep 28 bits,
and split into the low and the high 14-bit fragment. -/
def freqTuningPair (freq : ℚ) : ℕ × ℕ :=
  let f1 : ℚ := if freq < 0 then 0 else freq
  let f2 : ℚ := if f1 > 12500000 then 12500000 else f1
  let freq_data_raw : ℕ := (ratTrunc (f2 * freqScale)).toNat &&& 0x0FFFFFFF
  (freq_data_raw &&& 0x3FFF, (freq_data_raw >>> 14) &&& 0x3FFF)

/-- The phase conversion performed inline by `AD9833_PhaseSet` (soft
version, line 232): `(uint16_t)(fmod(phase, 360.0) / 360.0 * 4096.0)`
then `&= 0x0FFF`.  For a negative `fmod` result the C cast to `uint16_t`
is undefined behaviour; `Int.toNat` (yielding 0) stands in for it here,
and no theorem below relies on that arbitrary choice. -/
def phase_data_raw (phase : ℚ) : ℕ :=
  (ratTrunc (fmodQ phase 360 / 360 * 4096)).toNat &&& 0x0FFF

/-! ### Driver state and transport events -/

/-- The two file-scoped shadow control registers. -/
structure DriverState where
  s_control_reg_cs1 : ℕ
  s_control_reg_cs2 : ℕ
deriving DecidableEq, Repr

/-- The static initializers of the two shadows:
`AD9833_CMD_CTRLREG | AD9833_CTRL_B28 | AD9833_CTRL_RESET` for each. -/
def initialState : DriverState :=
  ⟨CMD_CTRLREG ||| CTRL_B28 ||| CTRL_RESET, CMD_CTRLREG ||| CTRL_B28 ||| CTRL_RESET⟩

/-- One 16-bit transmission: the chip-select framing used (the
`chipChose` value given to `AD9833_Write`) and the word sent. -/
abbrev Event := ℕ × ℕ

/-- `AD9833_Write(choice, TxData)`: frames one 16-bit transfer with CS1,
CS2, or both chip selects simultaneously; any other selector sends
nothing.  Returns the transmission events produced. -/
def AD9833_Write (choice TxData : ℕ) : List Event :=
  if choice = CS1 then [(CS1, TxData)]
  else if choice = CS2 then [(CS2, TxData)]
  else if choice = CS_BOTH then [(CS_BOTH, TxData)]
  else []

/-- `AD9833_GetShadowCtrlReg`: the shadow for CS1 or CS2, NULL otherwise. -/
def getShadow (s : DriverState) (choice : ℕ) : Option ℕ :=
  if choice = CS1 then some s.s_control_reg_cs1
  else if choice = CS2 then some s.s_control_reg_cs2
  else none

/-- Store a new value through the pointer `AD9833_GetShadowCtrlReg` returned
(no-op for a selector that yielded NULL; the callers below never reach that
case). -/
def setShadow (s : DriverState) (choice : ℕ) (v : ℕ) : DriverState :=
  if choice = CS1 then ⟨v, s.s_control_reg_cs2⟩
  else if choice = CS2 then ⟨s.s_control_reg_cs1, v⟩
  else s

/-- The read–modify–write–transmit idiom every control-register mutator of
the driver uses: fetch the shadow pointer, return silently on NULL,
otherwise update the shadow with `f` and transmit the new value. -/
def modifyCtrlReg (choice : ℕ) (f : ℕ → ℕ) (s : DriverState) :
    DriverState × List Event :=
  match getShadow s choice with
  | none => (s, [])
  | some reg => (setShadow s choice (f reg), AD9833_Write choice (f reg))

/-- Sequential composition of two driver calls: thread the state and
concatenate the transmissions, in program order. -/
def seqOp (f g : DriverState → DriverState × List Event) :
    DriverState → DriverState × List Event :=
  fun s => ((g (f s).1).1, (f s).2 ++ (g (f s).1).2)

/-- A bare `AD9833_Write` call viewed as a driver step (transmits, never
touches the shadows). -/
def writeOp (choice TxData : ℕ) : DriverState → DriverState × List Event :=
  fun s => (s, AD9833_Write choice TxData)

/-- A skipped branch: no transmission, no state change. -/
def skipOp : DriverState → DriverState × List Event := fun s => (s, [])

/-! ### Driver operations -/

/-- `AD9833_Init(status)` (soft version lines 133–166): reinitialize both
shadows to `CMD_CTRLREG | B28 | RESET`, then, per `workStatus`, OR
`SLEEP12` into the inactive chip's shadow (`CS1_SINGLE` powers down CS2's
DAC and vice versa; `CS1_CS2_DOUBLE` touches neither; any other value ORs
`SLEEP1 | SLEEP12` into both), and finally transmit CS1's word then
CS2's word. -/
def AD9833_Init (status : ℕ) : DriverState → DriverState × List Event :=
  fun _ =>
    let base : ℕ := CMD_CTRLREG ||| CTRL_B28 ||| CTRL_RESET
    let regs : ℕ × ℕ :=
      if status = CS1_SINGLE then (base, orBits base CTRL_SLEEP12)
      else if status = CS2_SINGLE then (orBits base CTRL_SLEEP12, base)
      else if status = CS1_CS2_DOUBLE then (base, base)
      else (orBits base (CTRL_SLEEP1 ||| CTRL_SLEEP12),
            orBits base (CTRL_SLEEP1 ||| CTRL_SLEEP12))
    (⟨regs.1, regs.2⟩, AD9833_Write CS1 regs.1 ++ AD9833_Write CS2 regs.2)

/-- The register update `AD9833_SelectFreqReg` applies to the shadow:
clear `FSELECT` for register number 0, set it for ANY other number. -/
def selFWord (reg freq_reg_num : ℕ) : ℕ :=
  if freq_reg_num = 0 then andNotBits reg CTRL_FSELECT
  else orBits reg CTRL_FSELECT

/-- The register update `AD9833_SelectPhaseReg` applies to the shadow:
clear `PSELECT` for register number 0, set it for ANY other number. -/
def selPWord (reg phase_reg_num : ℕ) : ℕ :=
  if phase_reg_num = 0 then andNotBits reg CTRL_PSELECT
  else orBits reg CTRL_PSELECT

/-- `AD9833_SelectFreqReg(choice, freq_reg_num)` (lines 312–326). -/
def AD9833_SelectFreqReg (choice freq_reg_num : ℕ) :
    DriverState → DriverState × List Event :=
  modifyCtrlReg choice (fun reg => selFWord reg freq_reg_num)

/-- `AD9833_SelectPhaseReg(choice, phase_reg_num)` (lines 338–352). -/
def AD9833_SelectPhaseReg (choice phase_reg_num : ℕ) :
    DriverState → DriverState × List Event :=
  modifyCtrlReg choice (fun reg => selPWord reg phase_reg_num)

/-- `AD9833_Reset(choice, reset_active)` (lines 364–378): set the `RESET`
bit when `reset_active` is nonzero, clear it otherwise, transmit. -/
def AD9833_Reset (choice reset_active : ℕ) :
    DriverState → DriverState × List Event :=
  modifyCtrlReg choice (fun reg =>
    if reset_active ≠ 0 then orBits reg CTRL_RESET
    else andNotBits reg CTRL_RESET)

/-- `AD9833_Sleep(choice, sleep1_active, sleep12_active)` (lines 393–416). -/
def AD9833_Sleep (choice sleep1_active sleep12_active : ℕ) :
    DriverState → DriverState × List Event :=
  modifyCtrlReg choice (fun reg =>
    let reg := if sleep1_active ≠ 0 then orBits reg CTRL_SLEEP1
               else andNotBits reg CTRL_SLEEP1
    if sleep12_active ≠ 0 then orBits reg CTRL_SLEEP12
    else andNotBits reg CTRL_SLEEP12)

/-- `AD9833_SetWaveformAndStart(choice, wave)` (lines 180–212): clear
`MODE`, `OPBITEN` and `DIV2`; set `MODE` for a triangle wave, or
`OPBITEN` then `DIV2` for a square wave (sine and every unrecognized
`waveType` set nothing); clear `RESET`; transmit the new word. -/
def AD9833_SetWaveformAndStart (choice wave : ℕ) :
    DriverState → DriverState × List Event :=
  modifyCtrlReg choice (fun reg =>
    let reg := andNotBits reg (CTRL_MODE ||| CTRL_OPBITEN ||| CTRL_DIV2)
    let reg :=
      if wave = SINE_WAVE then reg
      else if wave = TRIANGLE_WAVE then orBits reg CTRL_MODE
      else if wave = SQUARE_WAVE then orBits (orBits reg CTRL_OPBITEN) CTRL_DIV2
      else reg
    andNotBits reg CTRL_RESET)

/-- `AD9833_PhaseSet(choice, phase_reg_num, phase)` (lines 227–250):
convert the angle, pick the phase-register command word for register 0
or 1 (any other number returns without transmitting), and send one word. -/
def AD9833_PhaseSet (choice phase_reg_num : ℕ) (phase : ℚ) :
    DriverState → DriverState × List Event :=
  fun s =>
    let raw := phase_data_raw phase
    if phase_reg_num = 0 then (s, AD9833_Write choice (CMD_PHASE0REG ||| raw))
    else if phase_reg_num = 1 then (s, AD9833_Write choice (CMD_PHASE1REG ||| raw))
    else (s, [])

/-- `AD9833_FreqSet(choice, freq_reg_num, freq)` (lines 265–300): convert
the frequency, pick the frequency-register command word for register 0
or 1 (any other number returns without transmitting), then send the
low 14-bit fragment followed by the high 14-bit fragment. -/
def AD9833_FreqSet (choice freq_reg_num : ℕ) (freq : ℚ) :
    DriverState → DriverState × List Event :=
  fun s =>
    let freq_LSB := (freqTuningPair freq).1
    let freq_MSB := (freqTuningPair freq).2
    if freq_reg_num = 0 then
      (s, AD9833_Write choice (CMD_FREQ0REG ||| freq_LSB) ++
          AD9833_Write choice (CMD_FREQ0REG ||| freq_MSB))
    else if freq_reg_num = 1 then
      (s, AD9833_Write choice (CMD_FREQ1REG ||| freq_LSB) ++
          AD9833_Write choice (CMD_FREQ1REG ||| freq_MSB))
    else (s, [])

/-! ### Configuration structures and top-level entry points -/

/-- `DDS_InitTypedef`: one channel's desired output. -/
structure DDS_InitTypedef where
  wave : ℕ
  freq : ℚ
  phase : ℚ
  freqReg : ℕ
  phaseReg : ℕ
deriving Repr

/-- `AD9833_InitTypedef`: operating mode plus both channels' parameters. -/
structure AD9833_InitTypedef where
  status : ℕ
  AD_CS1 : DDS_InitTypedef
  AD_CS2 : DDS_InitTypedef
deriving Repr

/-- The channel-CS1 block of `AD9833_Cmd` (lines 432–438): select banks,
write frequency and phase, then set the waveform and start. -/
def cmdChannel1 (d : DDS_InitTypedef) : DriverState → DriverState × List Event :=
  seqOp (AD9833_SelectFreqReg CS1 d.freqReg)
    (seqOp (AD9833_SelectPhaseReg CS1 d.phaseReg)
      (seqOp (AD9833_FreqSet CS1 d.freqReg d.freq)
        (seqOp (AD9833_PhaseSet CS1 d.phaseReg d.phase)
          (AD9833_SetWaveformAndStart CS1 d.wave))))

/-- The channel-CS2 block of `AD9833_Cmd` (lines 443–448). -/
def cmdChannel2 (d : DDS_InitTypedef) : DriverState → DriverState × List Event :=
  seqOp (AD9833_SelectFreqReg CS2 d.freqReg)
    (seqOp (AD9833_SelectPhaseReg CS2 d.phaseReg)
      (seqOp (AD9833_FreqSet CS2 d.freqReg d.freq)
        (seqOp (AD9833_PhaseSet CS2 d.phaseReg d.phase)
          (AD9833_SetWaveformAndStart CS2 d.wave))))

/-- The body shared verbatim by both variants of `AD9833_Cmd`
(soft lines 427–449, HAL lines 347–369): initialize, then configure each
channel the `workStatus` marks active. -/
def AD9833_Cmd_body (a : AD9833_InitTypedef) :
    DriverState → DriverState × List Event :=
  seqOp (AD9833_Init a.status)
    (seqOp
      (if a.status = CS1_SINGLE ∨ a.status = CS1_CS2_DOUBLE then
        cmdChannel1 a.AD_CS1
      else skipOp)
      (if a.status = CS2_SINGLE ∨ a.status = CS1_CS2_DOUBLE then
        cmdChannel2 a.AD_CS2
      else skipOp))

/-- `AD9833_Cmd` of the soft version (lines 424–450): it dereferences its
argument with NO null check, so a NULL argument has no defined result. -/
def AD9833_Cmd (arg : Option AD9833_InitTypedef) (s : DriverState) :
    Option (DriverState × List Event) :=
  match arg with
  | none => none
  | some a => some (AD9833_Cmd_body a s)

/-- `AD9833_Cmd` of the HAL version (`AD9833_HAL.c` lines 339–370): its
first statement returns when the argument (or its SPI handle) is NULL,
making the NULL call a defined no-op; the rest is the shared body. -/
def AD9833_HAL_Cmd (arg : Option AD9833_InitTypedef) (s : DriverState) :
    DriverState × List Event :=
  match arg with
  | none => (s, [])
  | some a => AD9833_Cmd_body a s

/-- The broadcast start word `AD9833_Cmd_Sync` builds (lines 482–495):
`CMD_CTRLREG | B28` plus the waveform bits selected by the CS1 channel's
`waveType` (`MODE` for triangle, `OPBITEN | DIV2` for square, nothing for
sine or any other value). -/
def syncStartWord (wave : ℕ) : ℕ :=
  let w : ℕ := CMD_CTRLREG ||| CTRL_B28
  if wave = TRIANGLE_WAVE then w ||| CTRL_MODE
  else if wave = SQUARE_WAVE then w ||| (CTRL_OPBITEN ||| CTRL_DIV2)
  else w

/-- The body of `AD9833_Cmd_Sync` (lines 460–498): broadcast
`CMD_CTRLREG | B28 | RESET` to both chips (without touching the shadows),
configure channel 1 then channel 2 individually (bank select, frequency,
bank select, phase — no per-channel waveform start), then broadcast the
start word (again without touching the shadows). -/
def AD9833_Cmd_Sync_body (a : AD9833_InitTypedef) :
    DriverState → DriverState × List Event :=
  seqOp (writeOp CS_BOTH (CMD_CTRLREG ||| CTRL_B28 ||| CTRL_RESET))
    (seqOp (AD9833_SelectFreqReg CS1 a.AD_CS1.freqReg)
      (seqOp (AD9833_FreqSet CS1 a.AD_CS1.freqReg a.AD_CS1.freq)
        (seqOp (AD9833_SelectPhaseReg CS1 a.AD_CS1.phaseReg)
          (seqOp (AD9833_PhaseSet CS1 a.AD_CS1.phaseReg a.AD_CS1.phase)
            (seqOp (AD9833_SelectFreqReg CS2 a.AD_CS2.freqReg)
              (seqOp (AD9833_FreqSet CS2 a.AD_CS2.freqReg a.AD_CS2.freq)
                (seqOp (AD9833_SelectPhaseReg CS2 a.AD_CS2.phaseReg)
                  (seqOp (AD9833_PhaseSet CS2 a.AD_CS2.phaseReg a.AD_CS2.phase)
                    (writeOp CS_BOTH (syncStartWord a.AD_CS1.wave))))))))))

/-- `AD9833_Cmd_Sync` (soft version only, lines 458–499): like the soft
`AD9833_Cmd`, it performs NO null check before dereferencing. -/
def AD9833_Cmd_Sync (arg : Option AD9833_InitTypedef) (s : DriverState) :
    Option (DriverState × List Event) :=
  match arg with
  | none => none
  | some a => some (AD9833_Cmd_Sync_body a s)

/-! ### Statement-side definitions used by the verification -/

/-- The command word `AD9833_FreqSet` merges the fragments into, for a valid
register number: `CMD_FREQ0REG` for register 0, `CMD_FREQ1REG` for 1. -/
def freqCmdWord (freq_reg_num : ℕ) : ℕ :=
  if freq_reg_num = 0 then CMD_FREQ0REG else CMD_FREQ1REG

/-- The command word `AD9833_PhaseSet` merges the phase word into, for a
valid register number. -/
def phaseCmdWord (phase_reg_num : ℕ) : ℕ :=
  if phase_reg_num = 0 then CMD_PHASE0REG else CMD_PHASE1REG

/-- Modelled from the spec's claim wording for the frequency conversion:
clamp to `[0, 12.5 MHz]`, compute `round(freqHz * 2^28 / 25000000)` (round
to NEAREST), mask to 28 bits, split 14/14.  Compared against the source's
`freqTuningPair` below. -/
def freqTuningPairClaim (freq : ℚ) : ℕ × ℕ :=
  let f : ℚ := if freq < 0 then 0 else if freq > 12500000 then 12500000 else freq
  let raw : ℕ := (round (f * 268435456 / 25000000)).toNat &&& 0x0FFFFFFF
  (raw &&& 0x3FFF, (raw >>> 14) &&& 0x3FFF)

/-- The claim's frequency conversion amended at its single point of
disagreement with the source: the scaled value is TRUNCATED (floor of the
non-negative clamped value), not rounded to nearest. -/
def freqTuningPairAmended (freq : ℚ) : ℕ × ℕ :=
  let f : ℚ := if freq < 0 then 0 else if freq > 12500000 then 12500000 else freq
  let raw : ℕ := (⌊f * 268435456 / 25000000⌋).toNat &&& 0x0FFFFFFF
  (raw &&& 0x3FFF, (raw >>> 14) &&& 0x3FFF)

/-- A concrete dual-channel configuration: both channels sine, bank 0,
frequency 0 Hz, phase 0. -/
def syncExample : AD9833_InitTypedef :=
  ⟨CS1_CS2_DOUBLE, ⟨SINE_WAVE, 0, 0, 0, 0⟩, ⟨SINE_WAVE, 0, 0, 0, 0⟩⟩

/-! ### The last control-register word transmitted to a chip

A word whose top two bits are `00` — numerically, a word below `0x4000` —
is a control-register write.  `lastCtrl c tr` is the last control-register
word of the trace `tr` that chip `c` receives, counting both its individual
frames and the broadcast frames. -/

/-- Fold step: a later control-register word addressed to chip `c`
(individually or by broadcast) supersedes the accumulator. -/
def ctrlStep (c : ℕ) (acc : Option ℕ) (e : Event) : Option ℕ :=
  if (e.1 = c ∨ e.1 = CS_BOTH) ∧ e.2 < 16384 then some e.2 else acc

/-- The last control-register word chip `c` receives in the trace, if any. -/
def lastCtrl (c : ℕ) (tr : List Event) : Option ℕ := tr.foldl (ctrlStep c) none

/-- The shadow register the driver keeps for chip `c ∈ {CS1, CS2}`. -/
def shadowOf (s : DriverState) (c : ℕ) : ℕ :=
  if c = CS1 then s.s_control_reg_cs1 else s.s_control_reg_cs2

/-- After a step from `s` to `sout` that transmitted `tr`, chip `c`'s shadow
equals the last control-register word transmitted to that chip during the
step — or is untouched when the step transmitted no control word to it. -/
def ShadowTracksCtrl (s sout : DriverState) (tr : List Event) (c : ℕ) : Prop :=
  shadowOf sout c = (lastCtrl c tr).getD (shadowOf s c)

/-- A driver step maintains the shadow/transmission correspondence for both
chips and keeps both shadows inside the control-register word range. -/
def PreservesShadowInv (op : DriverState → DriverState × List Event) : Prop :=
  ∀ s : DriverState,
    s.s_control_reg_cs1 < 16384 → s.s_control_reg_cs2 < 16384 →
      ShadowTracksCtrl s (op s).1 (op s).2 CS1 ∧
      ShadowTracksCtrl s (op s).1 (op s).2 CS2 ∧
      (op s).1.s_control_reg_cs1 < 16384 ∧ (op s).1.s_control_reg_cs2 < 16384

/-! ### Basic facts about the embedded arithmetic -/

theorem ratTrunc_eq_floor {q : ℚ} (h : 0 ≤ q) : ratTrunc q = ⌊q⌋ := by
  rw [Rat.floor_def, ratTrunc]
  exact Int.tdiv_eq_ediv (Rat.num_nonneg.mpr h) (Int.natCast_nonneg _)

theorem u16_eq_mod (v : ℕ) : u16 v = v % 65536 := by
  unfold u16
  rw [show (65535 : ℕ) = 2 ^ 16 - 1 by norm_num, Nat.and_pow_two_sub_one_eq_mod]

theorem and_or_absorb (a b : ℕ) : a &&& (a ||| b) = a := by
  apply Nat.eq_of_testBit_eq
  intro i
  simp only [Nat.testBit_and, Nat.testBit_or]
  cases a.testBit i <;> simp

theorem le_or_left (a b : ℕ) : a ≤ a ||| b := by
  conv_lhs => rw [← and_or_absorb a b]
  exact Nat.and_le_right

theorem andNotBits_le (v m : ℕ) : andNotBits v m ≤ v :=
  le_trans Nat.and_le_left Nat.and_le_left

theorem andNotBits_lt {v : ℕ} (m : ℕ) (hv : v < 16384) : andNotBits v m < 16384 :=
  lt_of_le_of_lt (andNotBits_le v m) hv

theorem orBits_lt {v m : ℕ} (hv : v < 16384) (hm : m < 16384) :
    orBits v m < 16384 := by
  have h14 : (16384 : ℕ) = 2 ^ 14 := by norm_num
  have h := @Nat.or_lt_two_pow v m 14 (h14 ▸ hv) (h14 ▸ hm)
  exact lt_of_le_of_lt Nat.and_le_left (h14 ▸ h)

theorem foldl_ctrlStep (c : ℕ) (tr : List Event) (a : Option ℕ) :
    tr.foldl (ctrlStep c) a = (lastCtrl c tr).or a := by
  induction tr generalizing a with
  | nil => simp [lastCtrl]
  | cons e t ih =>
      show t.foldl (ctrlStep c) (ctrlStep c a e) = _
      rw [ih]
      have hcons : lastCtrl c (e :: t) = (lastCtrl c t).or (ctrlStep c none e) := by
        show t.foldl (ctrlStep c) (ctrlStep c none e) = _
        rw [ih]
      rw [hcons]
      cases lastCtrl c t with
      | some w => simp
      | none =>
          simp only [Option.none_or]
          unfold ctrlStep
          split <;> simp

theorem lastCtrl_append (c : ℕ) (t₁ t₂ : List Event) :
    lastCtrl c (t₁ ++ t₂) = (lastCtrl c t₂).or (lastCtrl c t₁) := by
  unfold lastCtrl
  rw [List.foldl_append]
  exact foldl_ctrlStep c t₂ (t₁.foldl (ctrlStep c) none)

theorem lastCtrl_none_of_ge {tr : List Event} (c : ℕ)
    (h : ∀ e ∈ tr, 16384 ≤ e.2) : lastCtrl c tr = none := by
  induction tr with
  | nil => rfl
  | cons e t ih =>
      have he : ctrlStep c none e = none := by
        have h2 := h e (List.mem_cons_self e t)
        unfold ctrlStep
        split
        · next hcond => exact absurd hcond.2 (by omega)
        · rfl
      show t.foldl (ctrlStep c) (ctrlStep c none e) = none
      rw [he]
      exact ih fun e' he' => h e' (List.mem_cons_of_mem _ he')

/-- Every event `AD9833_Write` produces carries the word it was given. -/
theorem mem_write_word {e : Event} {ch w : ℕ} (h : e ∈ AD9833_Write ch w) :
    e.2 = w := by
  unfold AD9833_Write at h
  split at h
  · simp_all
  · split at h
    · simp_all
    · split at h
      · simp_all
      · simp at h

theorem shadowTracks_append {s s₁ s₂ : DriverState} {t₁ t₂ : List Event} {c : ℕ}
    (h₁ : ShadowTracksCtrl s s₁ t₁ c) (h₂ : ShadowTracksCtrl s₁ s₂ t₂ c) :
    ShadowTracksCtrl s s₂ (t₁ ++ t₂) c := by
  unfold ShadowTracksCtrl at *
  rw [lastCtrl_append]
  cases hl : lastCtrl c t₂ with
  | some w => rw [hl] at h₂; simpa using h₂
  | none =>
      rw [hl] at h₂
      simp only [Option.getD_none] at h₂
      rw [h₂, h₁]
      cases lastCtrl c t₁ <;> simp

theorem seqOp_preserves {f g : DriverState → DriverState × List Event}
    (hf : PreservesShadowInv f) (hg : PreservesShadowInv g) :
    PreservesShadowInv (seqOp f g) := by
  intro s h1 h2
  obtain ⟨hf1, hf2, hb1, hb2⟩ := hf s h1 h2
  obtain ⟨hg1, hg2, hc1, hc2⟩ := hg (f s).1 hb1 hb2
  exact ⟨shadowTracks_append hf1 hg1, shadowTracks_append hf2 hg2, hc1, hc2⟩

theorem skipOp_preserves : PreservesShadowInv skipOp := by
  intro s h1 h2
  refine ⟨?_, ?_, h1, h2⟩ <;> simp [skipOp, ShadowTracksCtrl, lastCtrl]

theorem modifyCtrlReg_preserves (c : ℕ) (f : ℕ → ℕ)
    (hf : ∀ v, v < 16384 → f v < 16384) :
    PreservesShadowInv (modifyCtrlReg c f) := by
  intro s h1 h2
  by_cases hc1 : c = 1
  · subst hc1
    have hv := hf _ h1
    refine ⟨?_, ?_, ?_, ?_⟩ <;>
      simp [modifyCtrlReg, getShadow, setShadow, AD9833_Write, ShadowTracksCtrl,
            shadowOf, lastCtrl, ctrlStep, hv, h2]
  · by_cases hc2 : c = 2
    · subst hc2
      have hv := hf _ h2
      refine ⟨?_, ?_, ?_, ?_⟩ <;>
        simp [modifyCtrlReg, getShadow, setShadow, AD9833_Write, ShadowTracksCtrl,
              shadowOf, lastCtrl, ctrlStep, hv, h1]
    · refine ⟨?_, ?_, ?_, ?_⟩ <;>
        simp [modifyCtrlReg, getShadow, setShadow, ShadowTracksCtrl,
              shadowOf, lastCtrl, hc1, hc2, h1, h2]

theorem freqSet_preserves (c b : ℕ) (f : ℚ) :
    PreservesShadowInv (AD9833_FreqSet c b f) := by
  intro s h1 h2
  have hstate : (AD9833_FreqSet c b f s).1 = s := by
    simp only [AD9833_FreqSet]
    split
    · rfl
    · split <;> rfl
  have hnone : ∀ ch, lastCtrl ch (AD9833_FreqSet c b f s).2 = none := by
    intro ch
    apply lastCtrl_none_of_ge
    intro e he
    simp only [AD9833_FreqSet] at he
    split at he
    · rcases List.mem_append.mp he with h | h <;>
        rw [mem_write_word h] <;> exact le_or_left 16384 _
    · split at he
      · rcases List.mem_append.mp he with h | h <;>
          rw [mem_write_word h] <;>
          exact le_trans (by norm_num) (le_or_left 32768 _)
      · simp at he
  refine ⟨?_, ?_, ?_, ?_⟩
  · unfold ShadowTracksCtrl
    rw [hnone, hstate]
    simp
  · unfold ShadowTracksCtrl
    rw [hnone, hstate]
    simp
  · rw [hstate]; exact h1
  · rw [hstate]; exact h2

theorem phaseSet_preserves (c b : ℕ) (p : ℚ) :
    PreservesShadowInv (AD9833_PhaseSet c b p) := by
  intro s h1 h2
  have hstate : (AD9833_PhaseSet c b p s).1 = s := by
    simp only [AD9833_PhaseSet]
    split
    · rfl
    · split <;> rfl
  have hnone : ∀ ch, lastCtrl ch (AD9833_PhaseSet c b p s).2 = none := by
    intro ch
    apply lastCtrl_none_of_ge
    intro e he
    simp only [AD9833_PhaseSet] at he
    split at he
    · rw [mem_write_word he]
      exact le_trans (by norm_num) (le_or_left 49152 _)
    · split at he
      · rw [mem_write_word he]
        exact le_trans (by norm_num) (le_or_left 57344 _)
      · simp at he
  refine ⟨?_, ?_, ?_, ?_⟩
  · unfold ShadowTracksCtrl
    rw [hnone, hstate]
    simp
  · unfold ShadowTracksCtrl
    rw [hnone, hstate]
    simp
  · rw [hstate]; exact h1
  · rw [hstate]; exact h2

theorem init_preserves (st : ℕ) : PreservesShadowInv (AD9833_Init st) := by
  intro s h1 h2
  simp only [AD9833_Init]
  split_ifs <;>
    refine ⟨?_, ?_, ?_, ?_⟩ <;>
      simp [ShadowTracksCtrl, shadowOf, lastCtrl, ctrlStep, AD9833_Write,
            orBits, u16_eq_mod, CMD_CTRLREG, CTRL_B28, CTRL_RESET, CTRL_SLEEP1,
            CTRL_SLEEP12, CS1, CS2, CS_BOTH]

theorem selectFreqReg_preserves (c b : ℕ) :
    PreservesShadowInv (AD9833_SelectFreqReg c b) := by
  apply modifyCtrlReg_preserves
  intro v hv
  unfold selFWord
  split
  · exact andNotBits_lt _ hv
  · exact orBits_lt hv (by norm_num)

theorem selectPhaseReg_preserves (c b : ℕ) :
    PreservesShadowInv (AD9833_SelectPhaseReg c b) := by
  apply modifyCtrlReg_preserves
  intro v hv
  unfold selPWord
  split
  · exact andNotBits_lt _ hv
  · exact orBits_lt hv (by norm_num)

theorem reset_preserves (c r : ℕ) : PreservesShadowInv (AD9833_Reset c r) := by
  apply modifyCtrlReg_preserves
  intro v hv
  split
  · exact orBits_lt hv (by norm_num)
  · exact andNotBits_lt _ hv

theorem sleep_preserves (c a b : ℕ) :
    PreservesShadowInv (AD9833_Sleep c a b) := by
  apply modifyCtrlReg_preserves
  intro v hv
  dsimp only
  have h1 : (if a ≠ 0 then orBits v CTRL_SLEEP1 else andNotBits v CTRL_SLEEP1) < 16384 := by
    split
    · exact orBits_lt hv (by norm_num)
    · exact andNotBits_lt _ hv
  rcases ne_or_eq b 0 with hb | hb
  · rw [if_pos hb]
    exact orBits_lt h1 (by norm_num)
  · rw [if_neg (by simp [hb])]
    exact andNotBits_lt _ h1

theorem setWaveform_preserves (c w : ℕ) :
    PreservesShadowInv (AD9833_SetWaveformAndStart c w) := by
  apply modifyCtrlReg_preserves
  intro v hv
  have h1 : andNotBits v (CTRL_MODE ||| CTRL_OPBITEN ||| CTRL_DIV2) < 16384 :=
    andNotBits_lt _ hv
  apply andNotBits_lt
  split
  · exact h1
  · split
    · exact orBits_lt h1 (by norm_num)
    · split
      · exact orBits_lt (orBits_lt h1 (by norm_num)) (by norm_num)
      · exact h1

theorem cmdChannel1_preserves (d : DDS_InitTypedef) :
    PreservesShadowInv (cmdChannel1 d) :=
  seqOp_preserves (selectFreqReg_preserves _ _)
    (seqOp_preserves (selectPhaseReg_preserves _ _)
      (seqOp_preserves (freqSet_preserves _ _ _)
        (seqOp_preserves (phaseSet_preserves _ _ _)
          (setWaveform_preserves _ _))))

theorem cmdChannel2_preserves (d : DDS_InitTypedef) :
    PreservesShadowInv (cmdChannel2 d) :=
  seqOp_preserves (selectFreqReg_preserves _ _)
    (seqOp_preserves (selectPhaseReg_preserves _ _)
      (seqOp_preserves (freqSet_preserves _ _ _)
        (seqOp_preserves (phaseSet_preserves _ _ _)
          (setWaveform_preserves _ _))))

theorem cmdBody_preserves (a : AD9833_InitTypedef) :
    PreservesShadowInv (AD9833_Cmd_body a) := by
  apply seqOp_preserves (init_preserves _)
  apply seqOp_preserves
  · split
    · exact cmdChannel1_preserves _
    · exact skipOp_preserves
  · split
    · exact cmdChannel2_preserves _
    · exact skipOp_preserves

end AD9833
namespace AD9833

/-! ### C1 -/

/-- C1 (amended): after every public driver operation other than the
synchronized-start sequence, each chip's shadow control register equals the
last control-register word actually transmitted to that chip during the
operation (or is untouched when none was): this holds for the bank selects,
reset, sleep, waveform start, the frequency and phase writes (which
transmit no control word), `AD9833_Init`, and the whole `AD9833_Cmd` body —
but NOT for `AD9833_Cmd_Sync`, whose broadcast reset and start words bypass
the shadows (see its counterexample). -/
theorem C1_shadow_tracks_last_ctrl_word :
    (∀ c b, PreservesShadowInv (AD9833_SelectFreqReg c b)) ∧
    (∀ c b, PreservesShadowInv (AD9833_SelectPhaseReg c b)) ∧
    (∀ c r, PreservesShadowInv (AD9833_Reset c r)) ∧
    (∀ c x y, PreservesShadowInv (AD9833_Sleep c x y)) ∧
    (∀ c w, PreservesShadowInv (AD9833_SetWaveformAndStart c w)) ∧
    (∀ c b f, PreservesShadowInv (AD9833_FreqSet c b f)) ∧
    (∀ c b p, PreservesShadowInv (AD9833_PhaseSet c b p)) ∧
    (∀ st, PreservesShadowInv (AD9833_Init st)) ∧
    (∀ a, PreservesShadowInv (AD9833_Cmd_body a)) :=
  ⟨selectFreqReg_preserves, selectPhaseReg_preserves, reset_preserves,
   sleep_preserves, setWaveform_preserves, freqSet_preserves,
   phaseSet_preserves, init_preserves, cmdBody_preserves⟩

unseal Rat.mul Rat.add Rat.sub Rat.inv in
/-- C1 counterexample: running the synchronized start from the reset state
leaves chip 1's shadow different from the last control-register word the
chip received — the final broadcast start word (`0x2000`) is transmitted
but the shadow still holds `0x2100`. -/
theorem C1_counterexample :
    ¬ ShadowTracksCtrl initialState
        (AD9833_Cmd_Sync_body syncExample initialState).1
        (AD9833_Cmd_Sync_body syncExample initialState).2 CS1 := by
  unfold ShadowTracksCtrl
  decide

/-- C1 witness: the amended theorem applied to a concrete bank select. -/
theorem C1_witness :
    ShadowTracksCtrl initialState
      (AD9833_SelectFreqReg CS1 0 initialState).1
      (AD9833_SelectFreqReg CS1 0 initialState).2 CS1 :=
  ((C1_shadow_tracks_last_ctrl_word.1 CS1 0) initialState
    (by decide) (by decide)).1

/-! ### C5 -/

/-- C5: for a valid chip selector and a bank in {0, 1}, `AD9833_FreqSet`
transmits exactly two words and nothing else, in order: the selected
frequency register's command word ORed with the low 14-bit fragment, then
the same command word ORed with the high fragment; the shadows are
untouched. -/
theorem C5_freqset_two_words (c b : ℕ) (f : ℚ) (s : DriverState)
    (hc : c = CS1 ∨ c = CS2) (hb : b = 0 ∨ b = 1) :
    AD9833_FreqSet c b f s =
      (s, [(c, freqCmdWord b ||| (freqTuningPair f).1),
           (c, freqCmdWord b ||| (freqTuningPair f).2)]) := by
  rcases hc with rfl | rfl <;> rcases hb with rfl | rfl <;>
    simp [AD9833_FreqSet, AD9833_Write, freqCmdWord, CS1, CS2, CS_BOTH]

unseal Rat.mul Rat.add Rat.sub Rat.inv in
/-- C5 witness: 1 MHz on chip 1, bank 0, against a 25 MHz reference:
`raw = trunc(1000000 * 2^28 / 25000000) = 10737418`, low fragment `5898`,
high fragment `655`; the two words are `0x4000 ||| 5898 = 22282` then
`0x4000 ||| 655 = 17039`. -/
theorem C5_witness :
    AD9833_FreqSet CS1 0 1000000 initialState =
      (initialState, [(1, 22282), (1, 17039)]) := by
  rw [C5_freqset_two_words CS1 0 1000000 initialState (Or.inl rfl) (Or.inl rfl)]
  decide

end AD9833
namespace AD9833

/-! ### C2 -/

unseal Rat.mul Rat.add Rat.sub Rat.inv in
/-- C2 counterexample: at 1 Hz the source conversion truncates
`1 * 2^28 / 25000000 = 10.73741824` to `10`, while the claim's
round-to-nearest yields `11`. -/
theorem C2_counterexample : freqTuningPair 1 ≠ freqTuningPairClaim 1 := by
  decide

unseal Rat.mul Rat.add Rat.sub Rat.inv in
/-- C2 (amended): the conversion clamps to `[0, 12.5 MHz]`, TRUNCATES
(not rounds) `freq * 2^28 / 25000000`, masks to 28 bits and splits into two
14-bit fragments; every frequency above the bound gives the pair of the
bound itself, frequency 0 gives `(0, 0)`, and both fragments fit in
14 bits. -/
theorem C2_freq_conversion_amended :
    (∀ f : ℚ, freqTuningPair f = freqTuningPairAmended f) ∧
    (∀ f : ℚ, 12500000 < f → freqTuningPair f = freqTuningPair 12500000) ∧
    freqTuningPair 0 = (0, 0) ∧
    (∀ f : ℚ, (freqTuningPair f).1 < 16384 ∧ (freqTuningPair f).2 < 16384) := by
  refine ⟨?_, ?_, by decide, ?_⟩
  · intro f
    have hclamp :
        (if (if f < 0 then (0:ℚ) else f) > 12500000 then (12500000:ℚ)
         else if f < 0 then 0 else f) =
        if f < 0 then (0:ℚ) else if f > 12500000 then 12500000 else f := by
      split_ifs <;> first | rfl | linarith
    have hg : (0:ℚ) ≤ if f < 0 then (0:ℚ) else if f > 12500000 then 12500000 else f := by
      split_ifs with h1 h2
      · exact le_refl 0
      · norm_num
      · linarith
    simp only [freqTuningPair, freqTuningPairAmended]
    rw [hclamp]
    rw [show (if f < 0 then (0:ℚ) else if f > 12500000 then 12500000 else f) * freqScale
          = (if f < 0 then (0:ℚ) else if f > 12500000 then 12500000 else f)
              * 268435456 / 25000000 from by
        unfold freqScale FREQ_REG_MAX
        push_cast
        ring]
    rw [ratTrunc_eq_floor (div_nonneg (mul_nonneg hg (by norm_num)) (by norm_num))]
  · intro f hf
    simp only [freqTuningPair]
    rw [if_neg (by linarith : ¬ f < (0:ℚ)), if_pos (show f > (12500000:ℚ) from hf)]
    norm_num
  · intro f
    constructor <;> exact lt_of_le_of_lt Nat.and_le_right (by norm_num)

unseal Rat.mul Rat.add Rat.sub Rat.inv in
/-- C2 witness: a frequency above the Nyquist bound maps to the bound's
pair, which is `(0, 8192)` (raw value `2^27`). -/
theorem C2_witness :
    freqTuningPair 13000000 = freqTuningPair 12500000 ∧
    freqTuningPair 12500000 = (0, 8192) :=
  ⟨C2_freq_conversion_amended.2.1 13000000 (by norm_num), by decide⟩

end AD9833
namespace AD9833

/-! ### C3 -/

unseal Rat.mul Rat.add Rat.sub Rat.inv in
/-- C3 (code bug): the phase reduction uses C `fmod`, which carries the
dividend's sign: at `-90°` it returns `-90`, NOT a value in `[0, 360)`, so
the claimed non-negativity and the periodicity
`angleToPhaseWord(-90) = angleToPhaseWord(270)` fail (the C cast of the
negative scaled value to `uint16_t` is undefined behaviour).  A true
modulo would reduce `-90` to `270`, whose phase word is `3072`. -/
theorem C3_fmod_not_true_modulo :
    fmodQ (-90) 360 = -90 ∧
    ¬ (0 ≤ fmodQ (-90) 360) ∧
    fmodQ 270 360 = 270 ∧
    phase_data_raw 270 = 3072 ∧
    (-90 : ℚ) - 360 * ⌊(-90 : ℚ) / 360⌋ = 270 := by
  refine ⟨by decide, by decide, by decide, by decide, by decide⟩

/-! ### C4 -/

/-- C4 counterexample: `AD9833_SelectFreqReg` with the out-of-range bank
index 2 is NOT a no-op: it sets `FSELECT` and transmits. -/
theorem C4_counterexample :
    AD9833_SelectFreqReg CS1 2 initialState ≠ (initialState, []) := by
  decide

/-- C4 (amended): an unrecognized chip selector makes every
shadow-mutating operation a no-op, and a selector that is none of CS1, CS2,
CS_BOTH makes the frequency and phase writes transmit nothing; a bank index
outside {0, 1} makes `AD9833_FreqSet` and `AD9833_PhaseSet` no-ops; but
`AD9833_SelectFreqReg` and `AD9833_SelectPhaseReg` treat EVERY nonzero bank
index like bank 1 (they set the select bit and transmit). -/
theorem C4_invalid_selector_amended :
    (∀ c, c ≠ CS1 → c ≠ CS2 → ∀ b r x y w s,
      AD9833_SelectFreqReg c b s = (s, []) ∧
      AD9833_SelectPhaseReg c b s = (s, []) ∧
      AD9833_SetWaveformAndStart c w s = (s, []) ∧
      AD9833_Reset c r s = (s, []) ∧
      AD9833_Sleep c x y s = (s, [])) ∧
    (∀ c, c ≠ CS1 → c ≠ CS2 → c ≠ CS_BOTH → ∀ b f p s,
      AD9833_FreqSet c b f s = (s, []) ∧
      AD9833_PhaseSet c b p s = (s, [])) ∧
    (∀ b, b ≠ 0 → b ≠ 1 → ∀ c f p s,
      AD9833_FreqSet c b f s = (s, []) ∧
      AD9833_PhaseSet c b p s = (s, [])) ∧
    (∀ b, b ≠ 0 → ∀ c s,
      AD9833_SelectFreqReg c b s = AD9833_SelectFreqReg c 1 s ∧
      AD9833_SelectPhaseReg c b s = AD9833_SelectPhaseReg c 1 s) := by
  refine ⟨?_, ?_, ?_, ?_⟩
  · intro c hc1 hc2 b r x y w s
    refine ⟨?_, ?_, ?_, ?_, ?_⟩ <;>
      simp [AD9833_SelectFreqReg, AD9833_SelectPhaseReg, AD9833_SetWaveformAndStart,
            AD9833_Reset, AD9833_Sleep, modifyCtrlReg, getShadow, hc1, hc2]
  · intro c hc1 hc2 hc3 b f p s
    constructor
    · unfold AD9833_FreqSet
      split_ifs <;> simp [AD9833_Write, hc1, hc2, hc3]
    · unfold AD9833_PhaseSet
      split_ifs <;> simp [AD9833_Write, hc1, hc2, hc3]
  · intro b hb0 hb1 c f p s
    constructor
    · simp [AD9833_FreqSet, hb0, hb1]
    · simp [AD9833_PhaseSet, hb0, hb1]
  · intro b hb0 c s
    constructor
    · simp [AD9833_SelectFreqReg, modifyCtrlReg, selFWord, hb0]
    · simp [AD9833_SelectPhaseReg, modifyCtrlReg, selPWord, hb0]

/-- C4 witness: chip selector 7 is unrecognized, so the bank select is a
no-op even with a valid bank. -/
theorem C4_witness :
    AD9833_SelectFreqReg 7 0 initialState = (initialState, []) :=
  ((C4_invalid_selector_amended.1 7 (by decide) (by decide))
    0 0 0 0 0 initialState).1

end AD9833
namespace AD9833

/-! ### Extra bit-level helpers -/

theorem orBits_orBits (x a b : ℕ) : orBits (orBits x a) b = orBits x (a ||| b) := by
  apply Nat.eq_of_testBit_eq
  intro i
  simp only [orBits, u16, Nat.testBit_and, Nat.testBit_or]
  cases x.testBit i <;> cases a.testBit i <;> cases b.testBit i <;>
    cases (65535 : ℕ).testBit i <;> rfl

theorem andNotBits_and_eq_zero (x m : ℕ) (hm : m < 65536) :
    andNotBits x m &&& m = 0 := by
  apply Nat.eq_of_testBit_eq
  intro i
  simp only [andNotBits, u16, Nat.testBit_and, Nat.testBit_xor, Nat.zero_testBit]
  cases hb : m.testBit i
  · simp
  · have hi : i < 16 := by
      by_contra hge
      have hpow : (65536 : ℕ) ≤ 2 ^ i := by
        calc (65536 : ℕ) = 2 ^ 16 := by norm_num
          _ ≤ 2 ^ i := Nat.pow_le_pow_right (by norm_num) (by omega)
      have hlt : m < 2 ^ i := lt_of_lt_of_le hm hpow
      rw [Nat.testBit_lt_two_pow hlt] at hb
      exact Bool.false_ne_true hb
    have h16 : (65535 : ℕ).testBit i = true := by
      rw [show (65535 : ℕ) = 2 ^ 16 - 1 by norm_num, Nat.testBit_two_pow_sub_one]
      simpa using hi
    simp [h16]

theorem and_mask_mono (x y m : ℕ) (h : x &&& m = 0) : (x &&& y) &&& m = 0 := by
  apply Nat.eq_of_testBit_eq
  intro i
  have hxm := congrArg (fun v => Nat.testBit v i) h
  simp only [Nat.testBit_and, Nat.zero_testBit] at hxm ⊢
  cases hx : x.testBit i <;> cases hm2 : m.testBit i <;> simp_all

theorem sine_clears_wavebits (y : ℕ) :
    andNotBits (andNotBits y (CTRL_MODE ||| CTRL_OPBITEN ||| CTRL_DIV2)) CTRL_RESET &&&
      (CTRL_MODE ||| CTRL_OPBITEN ||| CTRL_DIV2) = 0 := by
  exact and_mask_mono _ _ _ (and_mask_mono _ _ _
    (andNotBits_and_eq_zero _ _ (by decide)))

/-! ### C7 -/

/-- C7: for a valid chip selector, `AD9833_SetWaveformAndStart` first
clears the three waveform bits, sets exactly the requested combination
(sine: none; triangle: `MODE`; square: `OPBITEN` and `DIV2`), clears the
`RESET` bit, and transmits the resulting word once (leaving the other
chip's shadow untouched — visible in `setShadow`); for every waveform
argument the transmitted shadow has `RESET` clear, and square followed by
sine on the same chip leaves all three waveform bits clear. -/
theorem C7_waveform_and_start (c : ℕ) (s : DriverState) (hc : c = CS1 ∨ c = CS2) :
    AD9833_SetWaveformAndStart c SINE_WAVE s =
      (setShadow s c (andNotBits (andNotBits (shadowOf s c)
          (CTRL_MODE ||| CTRL_OPBITEN ||| CTRL_DIV2)) CTRL_RESET),
       [(c, andNotBits (andNotBits (shadowOf s c)
          (CTRL_MODE ||| CTRL_OPBITEN ||| CTRL_DIV2)) CTRL_RESET)]) ∧
    AD9833_SetWaveformAndStart c TRIANGLE_WAVE s =
      (setShadow s c (andNotBits (orBits (andNotBits (shadowOf s c)
          (CTRL_MODE ||| CTRL_OPBITEN ||| CTRL_DIV2)) CTRL_MODE) CTRL_RESET),
       [(c, andNotBits (orBits (andNotBits (shadowOf s c)
          (CTRL_MODE ||| CTRL_OPBITEN ||| CTRL_DIV2)) CTRL_MODE) CTRL_RESET)]) ∧
    AD9833_SetWaveformAndStart c SQUARE_WAVE s =
      (setShadow s c (andNotBits (orBits (andNotBits (shadowOf s c)
          (CTRL_MODE ||| CTRL_OPBITEN ||| CTRL_DIV2))
          (CTRL_OPBITEN ||| CTRL_DIV2)) CTRL_RESET),
       [(c, andNotBits (orBits (andNotBits (shadowOf s c)
          (CTRL_MODE ||| CTRL_OPBITEN ||| CTRL_DIV2))
          (CTRL_OPBITEN ||| CTRL_DIV2)) CTRL_RESET)]) ∧
    (∀ w, shadowOf (AD9833_SetWaveformAndStart c w s).1 c &&& CTRL_RESET = 0) ∧
    shadowOf ((AD9833_SetWaveformAndStart c SINE_WAVE
        ((AD9833_SetWaveformAndStart c SQUARE_WAVE s).1)).1) c &&&
      (CTRL_MODE ||| CTRL_OPBITEN ||| CTRL_DIV2) = 0 := by
  rcases hc with rfl | rfl <;>
    refine ⟨?_, ?_, ?_, ?_, ?_⟩ <;>
    [skip; skip; skip; intro w; skip; skip; skip; skip; intro w; skip] <;>
    simp [AD9833_SetWaveformAndStart, modifyCtrlReg, getShadow, setShadow,
          shadowOf, AD9833_Write, orBits_orBits, CS1, CS2, CS_BOTH] <;>
    first
      | exact andNotBits_and_eq_zero _ _ (by norm_num)
      | exact sine_clears_wavebits _

/-- C7 witness: square wave on chip 1 from the reset state transmits
`0x2028 &...` — concretely the word `8232` — and the shadow follows. -/
theorem C7_witness :
    AD9833_SetWaveformAndStart CS1 SQUARE_WAVE initialState =
      (⟨8232, 8448⟩, [(1, 8232)]) := by
  rw [(C7_waveform_and_start CS1 initialState (Or.inl rfl)).2.2.1]
  decide

/-! ### C6 -/

/-- C6: the synchronized start emits, in order: one broadcast of the
control word with `B28` and `RESET` set; then for chip 1 and then chip 2
the frequency-bank select, the two frequency fragments, the phase-bank
select and the phase word — all individually framed, with no per-channel
waveform start; then exactly one final broadcast whose word has `B28` set,
`RESET` clear, and waveform bits derived solely from chip 1's configured
waveform (sine: none; triangle: `MODE`; square: `OPBITEN | DIV2`). -/
theorem C6_sync_sequence (a : AD9833_InitTypedef) (s : DriverState)
    (hf1 : a.AD_CS1.freqReg = 0 ∨ a.AD_CS1.freqReg = 1)
    (hp1 : a.AD_CS1.phaseReg = 0 ∨ a.AD_CS1.phaseReg = 1)
    (hf2 : a.AD_CS2.freqReg = 0 ∨ a.AD_CS2.freqReg = 1)
    (hp2 : a.AD_CS2.phaseReg = 0 ∨ a.AD_CS2.phaseReg = 1) :
    AD9833_Cmd_Sync_body a s =
      (⟨selPWord (selFWord s.s_control_reg_cs1 a.AD_CS1.freqReg) a.AD_CS1.phaseReg,
        selPWord (selFWord s.s_control_reg_cs2 a.AD_CS2.freqReg) a.AD_CS2.phaseReg⟩,
       [(CS_BOTH, CMD_CTRLREG ||| CTRL_B28 ||| CTRL_RESET),
        (CS1, selFWord s.s_control_reg_cs1 a.AD_CS1.freqReg),
        (CS1, freqCmdWord a.AD_CS1.freqReg ||| (freqTuningPair a.AD_CS1.freq).1),
        (CS1, freqCmdWord a.AD_CS1.freqReg ||| (freqTuningPair a.AD_CS1.freq).2),
        (CS1, selPWord (selFWord s.s_control_reg_cs1 a.AD_CS1.freqReg) a.AD_CS1.phaseReg),
        (CS1, phaseCmdWord a.AD_CS1.phaseReg ||| phase_data_raw a.AD_CS1.phase),
        (CS2, selFWord s.s_control_reg_cs2 a.AD_CS2.freqReg),
        (CS2, freqCmdWord a.AD_CS2.freqReg ||| (freqTuningPair a.AD_CS2.freq).1),
        (CS2, freqCmdWord a.AD_CS2.freqReg ||| (freqTuningPair a.AD_CS2.freq).2),
        (CS2, selPWord (selFWord s.s_control_reg_cs2 a.AD_CS2.freqReg) a.AD_CS2.phaseReg),
        (CS2, phaseCmdWord a.AD_CS2.phaseReg ||| phase_data_raw a.AD_CS2.phase),
        (CS_BOTH, syncStartWord a.AD_CS1.wave)]) ∧
    syncStartWord SINE_WAVE = CMD_CTRLREG ||| CTRL_B28 ∧
    syncStartWord TRIANGLE_WAVE = CMD_CTRLREG ||| CTRL_B28 ||| CTRL_MODE ∧
    syncStartWord SQUARE_WAVE =
      CMD_CTRLREG ||| CTRL_B28 ||| (CTRL_OPBITEN ||| CTRL_DIV2) := by
  refine ⟨?_, by decide, by decide, by decide⟩
  rcases hf1 with h1 | h1 <;> rcases hp1 with h2 | h2 <;>
    rcases hf2 with h3 | h3 <;> rcases hp2 with h4 | h4 <;>
    simp [AD9833_Cmd_Sync_body, seqOp, writeOp, AD9833_SelectFreqReg,
          AD9833_SelectPhaseReg, AD9833_FreqSet, AD9833_PhaseSet, modifyCtrlReg,
          getShadow, setShadow, AD9833_Write, selFWord, selPWord, freqCmdWord,
          phaseCmdWord, h1, h2, h3, h4, CS1, CS2, CS_BOTH]

unseal Rat.mul Rat.add Rat.sub Rat.inv in
/-- C6 witness: the concrete trace of the synchronized start for two sine
channels at 0 Hz, bank 0, from the reset state. -/
theorem C6_witness :
    AD9833_Cmd_Sync_body syncExample initialState =
      (⟨8448, 8448⟩,
       [(3, 8448), (1, 8448), (1, 16384), (1, 16384), (1, 8448), (1, 49152),
        (2, 8448), (2, 16384), (2, 16384), (2, 8448), (2, 49152), (3, 8192)]) := by
  rw [(C6_sync_sequence syncExample initialState (Or.inl rfl) (Or.inl rfl)
    (Or.inl rfl) (Or.inl rfl)).1]
  decide

/-! ### C8 -/

/-- C8: `AD9833_Init` resets both shadows to `B28 | RESET`; in
single-channel modes it additionally sets `SLEEP12` on the inactive chip
only, in dual mode on neither, and for every unrecognized mode it sets
`SLEEP1 | SLEEP12` on both; it then transmits chip 1's word followed by
chip 2's. -/
theorem C8_init_modes (s : DriverState) :
    AD9833_Init CS1_SINGLE s =
      (⟨CMD_CTRLREG ||| CTRL_B28 ||| CTRL_RESET,
        CMD_CTRLREG ||| CTRL_B28 ||| CTRL_RESET ||| CTRL_SLEEP12⟩,
       [(CS1, CMD_CTRLREG ||| CTRL_B28 ||| CTRL_RESET),
        (CS2, CMD_CTRLREG ||| CTRL_B28 ||| CTRL_RESET ||| CTRL_SLEEP12)]) ∧
    AD9833_Init CS2_SINGLE s =
      (⟨CMD_CTRLREG ||| CTRL_B28 ||| CTRL_RESET ||| CTRL_SLEEP12,
        CMD_CTRLREG ||| CTRL_B28 ||| CTRL_RESET⟩,
       [(CS1, CMD_CTRLREG ||| CTRL_B28 ||| CTRL_RESET ||| CTRL_SLEEP12),
        (CS2, CMD_CTRLREG ||| CTRL_B28 ||| CTRL_RESET)]) ∧
    AD9833_Init CS1_CS2_DOUBLE s =
      (⟨CMD_CTRLREG ||| CTRL_B28 ||| CTRL_RESET,
        CMD_CTRLREG ||| CTRL_B28 ||| CTRL_RESET⟩,
       [(CS1, CMD_CTRLREG ||| CTRL_B28 ||| CTRL_RESET),
        (CS2, CMD_CTRLREG ||| CTRL_B28 ||| CTRL_RESET)]) ∧
    (∀ m, m ≠ CS1_SINGLE → m ≠ CS2_SINGLE → m ≠ CS1_CS2_DOUBLE →
      AD9833_Init m s =
        (⟨CMD_CTRLREG ||| CTRL_B28 ||| CTRL_RESET ||| (CTRL_SLEEP1 ||| CTRL_SLEEP12),
          CMD_CTRLREG ||| CTRL_B28 ||| CTRL_RESET ||| (CTRL_SLEEP1 ||| CTRL_SLEEP12)⟩,
         [(CS1, CMD_CTRLREG ||| CTRL_B28 ||| CTRL_RESET ||| (CTRL_SLEEP1 ||| CTRL_SLEEP12)),
          (CS2, CMD_CTRLREG ||| CTRL_B28 ||| CTRL_RESET |||
            (CTRL_SLEEP1 ||| CTRL_SLEEP12))])) := by
  refine ⟨rfl, rfl, rfl, ?_⟩
  intro m h0 h1 h2
  simp only [AD9833_Init]
  rw [if_neg h0, if_neg h1, if_neg h2]
  decide

/-- C8 witness: the unrecognized mode 7 powers down clock and DAC on both
chips (`0x21C0 = 8640`). -/
theorem C8_witness :
    AD9833_Init 7 initialState = (⟨8640, 8640⟩, [(1, 8640), (2, 8640)]) := by
  rw [(C8_init_modes initialState).2.2.2 7 (by decide) (by decide) (by decide)]
  decide

/-! ### C9 -/

/-- C9 counterexample: with a NULL configuration neither entry point of the
soft variant returns the no-op result `some (s, [])` — both dereference the
NULL pointer (modelled as `none`). -/
theorem C9_counterexample :
    AD9833_Cmd none initialState ≠ some (initialState, []) ∧
    AD9833_Cmd_Sync none initialState ≠ some (initialState, []) := by
  constructor <;> decide

/-- C9 (amended): only the HAL variant's `AD9833_Cmd` checks its argument
for NULL and returns as a defined no-op; the soft variant's `AD9833_Cmd`
and `AD9833_Cmd_Sync` perform no check and have no defined result on NULL. -/
theorem C9_null_config_amended (s : DriverState) :
    AD9833_HAL_Cmd none s = (s, []) ∧
    AD9833_Cmd none s = none ∧
    AD9833_Cmd_Sync none s = none :=
  ⟨rfl, rfl, rfl⟩

/-! ### C10 -/

/-- C10: with the broadcast selector `CS_BOTH`, `AD9833_FreqSet` and
`AD9833_PhaseSet` transmit their command words framed to both chips
simultaneously (events carry the `CS_BOTH` framing), while the bank
selects, the waveform start, reset and sleep do nothing at all — no
transmission, no shadow change — because no shadow register exists for the
broadcast selector. -/
theorem C10_broadcast_selector (b w r x y : ℕ) (f p : ℚ) (s : DriverState)
    (hb : b = 0 ∨ b = 1) :
    AD9833_FreqSet CS_BOTH b f s =
      (s, [(CS_BOTH, freqCmdWord b ||| (freqTuningPair f).1),
           (CS_BOTH, freqCmdWord b ||| (freqTuningPair f).2)]) ∧
    AD9833_PhaseSet CS_BOTH b p s =
      (s, [(CS_BOTH, phaseCmdWord b ||| phase_data_raw p)]) ∧
    AD9833_SelectFreqReg CS_BOTH b s = (s, []) ∧
    AD9833_SelectPhaseReg CS_BOTH b s = (s, []) ∧
    AD9833_SetWaveformAndStart CS_BOTH w s = (s, []) ∧
    AD9833_Reset CS_BOTH r s = (s, []) ∧
    AD9833_Sleep CS_BOTH x y s = (s, []) := by
  rcases hb with rfl | rfl <;>
    refine ⟨?_, ?_, ?_, ?_, ?_, ?_, ?_⟩ <;>
      simp [AD9833_FreqSet, AD9833_PhaseSet, AD9833_SelectFreqReg,
            AD9833_SelectPhaseReg, AD9833_SetWaveformAndStart, AD9833_Reset,
            AD9833_Sleep, modifyCtrlReg, getShadow, AD9833_Write,
            freqCmdWord, phaseCmdWord, CS1, CS2, CS_BOTH]

/-- C10 witness: a waveform start addressed to the broadcast selector is a
no-op. -/
theorem C10_witness :
    AD9833_SetWaveformAndStart CS_BOTH SINE_WAVE initialState =
      (initialState, []) :=
  (C10_broadcast_selector 0 SINE_WAVE 0 0 0 0 0 initialState (Or.inl rfl)).2.2.2.2.1

end AD9833
